import Mathlib

/-!
Shallow embedding of the go-libp2p I2P transport (package `i2p`,
`transport.go`) together with the boundary behaviour of its collaborators
(the SAM session provider, the connection upgrader, the resource manager),
which are modelled as oracles whose outcomes are explicit parameters.
External calls are recorded in explicit event traces so that resource
acquisition and release can be counted.
-/

/-! ## Multiaddr model

A multiaddr is modelled as its list of components, each a protocol code
paired with its textual payload.  The protocol codes are the ones from
go-multiaddr used by this transport. -/

def P_GARLIC64 : Nat := 454

def P_GARLIC32 : Nat := 455

def P_TCP : Nat := 6

abbrev Multiaddr := List (Nat × String)

/-- Protocol codes of a multiaddr, in order. -/
def maProtocols (a : Multiaddr) : List Nat := a.map Prod.fst

/-! ## The mafmt pattern model

`transport.go` builds `dialMatcher = mafmt.Or(mafmt.Base(ma.P_GARLIC64),
mafmt.Base(ma.P_GARLIC32))`.  In go-multiaddr-fmt, `Base(code)` consumes
exactly one leading component with that protocol code, `Or` tries its
alternatives in order, and `Matches` succeeds when the whole component
list is consumed. -/

inductive MafmtPattern where
  | base (code : Nat)
  | anyOf (p q : MafmtPattern)
deriving DecidableEq

/-- Partial match of a pattern against a protocol-code list: `some rest`
means the pattern matched a prefix, leaving `rest` unconsumed. -/
def mafmtPartialMatch : MafmtPattern → List Nat → Option (List Nat)
  | .base c, l =>
    match l with
    | [] => none
    | x :: rest => if x = c then some rest else none
  | .anyOf p q, l =>
    match mafmtPartialMatch p l with
    | some rest => some rest
    | none => mafmtPartialMatch q l

/-- Full match: the pattern consumes the entire protocol list. -/
def MafmtPattern.matches (p : MafmtPattern) (protos : List Nat) : Bool :=
  match mafmtPartialMatch p protos with
  | some [] => true
  | _ => false

/-- The transport's dial matcher from `transport.go`. -/
def dialMatcher : MafmtPattern :=
  .anyOf (.base P_GARLIC64) (.base P_GARLIC32)

/-- `CanDial` from `transport.go`: `dialMatcher.Matches(addr)`. -/
def CanDial (addr : Multiaddr) : Bool :=
  dialMatcher.matches (maProtocols addr)

/-- `Protocols` from `transport.go`: the protocol codes the transport
advertises. -/
def Protocols : List Nat := [P_GARLIC64, P_GARLIC32, P_TCP]

/-- `Proxy` from `transport.go`. -/
def Proxy : Bool := false

/-! ## Address Translator

The file defining `I2PAddrToMultiAddr` and `MultiAddrToI2PAddr` is not part
of the sources at hand; the two functions are modelled from the spec
(§4.1 Address Translator, §3 Data Model). -/

/-- Characters of the I2P base64 alphabet used by the full-form
Destination encoding. -/
def isI2PB64Char (c : Char) : Bool :=
  (('A' ≤ c && c ≤ 'Z') || ('a' ≤ c && c ≤ 'z') ||
   ('0' ≤ c && c ≤ '9') || c = '-' || c = '~')

/-- Modelled from the spec: a syntactically valid full-form Destination
string is a long string over the fixed base64 alphabet (truncated or
invalid-alphabet input is rejected with `MalformedAddress`). -/
def isValidFullDestination (s : String) : Bool :=
  516 ≤ s.length && s.toList.all isI2PB64Char

/-- Modelled from the spec: `toGenericAddress` — `I2PAddrToMultiAddr`
wraps a syntactically valid Destination string into a one-component
overlay multiaddr and rejects malformed input. -/
def I2PAddrToMultiAddr (s : String) : Except String Multiaddr :=
  if isValidFullDestination s then Except.ok [(P_GARLIC64, s)]
  else Except.error "MalformedAddress"

/-- Modelled from the spec: `toDestinationString` — `MultiAddrToI2PAddr`
accepts exactly the two advertised overlay protocol tags and returns the
Destination payload, rejecting every other address form. -/
def MultiAddrToI2PAddr (a : Multiaddr) : Except String String :=
  match a with
  | [(c, v)] =>
    if c = P_GARLIC64 || c = P_GARLIC32 then Except.ok v
    else Except.error "UnsupportedAddressFamily"
  | _ => Except.error "UnsupportedAddressFamily"

/-! ## Session Manager: `I2PTransportBuilder`

The builder's collaborators — the SAM client's session-creation calls and
the process RNG — are modelled as an oracle environment, and every
provider call is recorded in a trace.  The outcome of `rand.Int()` after
`rand.Seed(rngSeed)` is a function of the seed. -/

structure BuildEnv where
  randIntOf : Int → Nat
  primaryOk : Bool
  inboundOk : Bool
  outboundOk : Bool
  primaryAddr : String

inductive BuildEv where
  | newPrimarySession (name : String)
  | newStreamSubSession (name : String)
  | newStreamSubSessionWithPorts (name fromPort toPort : String)
deriving DecidableEq

/-- SAM default FROM_PORT for a sub-session created without explicit
ports ("inbound session listening on port 0 (default/any port)"). -/
def defaultFromPort : String := "0"

/-- SAM default TO_PORT for a sub-session created without explicit
ports. -/
def defaultToPort : String := "0"

/-- Protocol+port binding a provider call establishes, when it creates a
sub-session. -/
def BuildEv.binding : BuildEv → Option (String × String)
  | .newStreamSubSession _ => some (defaultFromPort, defaultToPort)
  | .newStreamSubSessionWithPorts _ f t => some (f, t)
  | _ => none

/-- `I2PTransportBuilder` from `transport.go`: seeds the RNG, derives a
session-name suffix, creates the primary session, the inbound sub-session
(default ports) and the outbound sub-session (ports "1"/"0"), then
translates the primary session's own Destination.  Returns the trace of
provider calls and either the transport's listening multiaddr or the
error. -/
def I2PTransportBuilder (env : BuildEnv) (outboundPort : String)
    (rngSeed : Int) : List BuildEv × Except String Multiaddr :=
  let suffix := toString (env.randIntOf rngSeed)
  let primaryCall := BuildEv.newPrimarySession ("primarySession-" ++ suffix)
  if env.primaryOk = false then
    ([primaryCall], Except.error "Failed to create Primary session with I2P SAM")
  else
    let inboundCall := BuildEv.newStreamSubSession ("inboundSession-" ++ suffix)
    if env.inboundOk = false then
      ([primaryCall, inboundCall],
       Except.error "Failed to create inboundSession subsession with I2P SAM")
    else
      let outboundCall :=
        BuildEv.newStreamSubSessionWithPorts ("outboundSession-" ++ suffix) "1" "0"
      if env.outboundOk = false then
        ([primaryCall, inboundCall, outboundCall],
         Except.error "Failed to create outbound subsession with I2P SAM")
      else
        match I2PAddrToMultiAddr env.primaryAddr with
        | Except.error e => ([primaryCall, inboundCall, outboundCall], Except.error e)
        | Except.ok dest => ([primaryCall, inboundCall, outboundCall], Except.ok dest)

/-! ## Transport Façade: `Dial`

The blocking collaborator calls inside `Dial` are modelled as oracles:
each read of `ctx.Err()` is its own boolean (the context is only observed
at these checkpoints), and `DialI2P` / `Upgrader.Upgrade` may return an
error, a nil value without an error, or a value.  Events record the raw
dial, closes of the raw and of the wrapped connection, resource-scope
open/`Done`, and the upgrade call. -/

inductive RawResult where
  | err
  | nilConn
  | conn
deriving DecidableEq

structure DialEnv where
  ctxCancelled1 : Bool
  rawDial : RawResult
  ctxCancelled2 : Bool
  ctxCancelled3 : Bool
  localAddrOk : Bool
  newConnOk : Bool
  upgraderNil : Bool
  ctxCancelled4 : Bool
  hasRcmgr : Bool
  openConnOk : Bool
  upgrade : RawResult
  ctxCancelled5 : Bool
deriving DecidableEq

inductive DialEv where
  | rawDialCall
  | rawConnClose
  | wrappedConnClose
  | scopeOpen
  | scopeDone
  | upgradeCall
deriving DecidableEq

inductive DialError where
  | notDialable
  | translationFailed
  | cancelledBeforeDial
  | cancelledDuringDial
  | dialFailed
  | nilConnection
  | cancelledAfterDial
  | localAddrFailed
  | wrapFailed
  | nilUpgrader
  | cancelledBeforeUpgrade
  | scopeOpenFailed
  | upgradeCancelled
  | upgradeFailed
  | nilUpgradedConn
deriving DecidableEq

/-- Errors that wrap `ctx.Err()` (the spec's `DialCancelled` family). -/
def DialError.isCancellation : DialError → Bool
  | .cancelledBeforeDial => true
  | .cancelledDuringDial => true
  | .cancelledAfterDial => true
  | .cancelledBeforeUpgrade => true
  | .upgradeCancelled => true
  | _ => false

/-- The body of `Dial` after the dialability check and address
translation succeeded (`transport.go` lines 111-197), as a function of
the oracle environment.  Returns the event trace and the outcome. -/
def dialCore (env : DialEnv) : List DialEv × Except DialError Unit :=
  if env.ctxCancelled1 then ([], Except.error .cancelledBeforeDial)
  else
    match env.rawDial with
    | .err =>
      if env.ctxCancelled2 then ([.rawDialCall], Except.error .cancelledDuringDial)
      else ([.rawDialCall], Except.error .dialFailed)
    | .nilConn =>
      if env.ctxCancelled3 then ([.rawDialCall], Except.error .cancelledAfterDial)
      else ([.rawDialCall], Except.error .nilConnection)
    | .conn =>
      if env.ctxCancelled3 then
        ([.rawDialCall, .rawConnClose], Except.error .cancelledAfterDial)
      else if env.localAddrOk = false then
        ([.rawDialCall, .rawConnClose], Except.error .localAddrFailed)
      else if env.newConnOk = false then
        ([.rawDialCall, .rawConnClose], Except.error .wrapFailed)
      else if env.upgraderNil then
        ([.rawDialCall, .wrappedConnClose], Except.error .nilUpgrader)
      else if env.ctxCancelled4 then
        ([.rawDialCall, .wrappedConnClose], Except.error .cancelledBeforeUpgrade)
      else if env.hasRcmgr then
        if env.openConnOk = false then
          ([.rawDialCall, .wrappedConnClose], Except.error .scopeOpenFailed)
        else
          match env.upgrade with
          | .err =>
            if env.ctxCancelled5 then
              ([.rawDialCall, .scopeOpen, .upgradeCall, .wrappedConnClose, .scopeDone],
               Except.error .upgradeCancelled)
            else
              ([.rawDialCall, .scopeOpen, .upgradeCall, .wrappedConnClose, .scopeDone],
               Except.error .upgradeFailed)
          | .nilConn =>
            ([.rawDialCall, .scopeOpen, .upgradeCall, .scopeDone],
             Except.error .nilUpgradedConn)
          | .conn => ([.rawDialCall, .scopeOpen, .upgradeCall], Except.ok ())
      else
        match env.upgrade with
        | .err =>
          if env.ctxCancelled5 then
            ([.rawDialCall, .upgradeCall, .wrappedConnClose],
             Except.error .upgradeCancelled)
          else
            ([.rawDialCall, .upgradeCall, .wrappedConnClose],
             Except.error .upgradeFailed)
        | .nilConn => ([.rawDialCall, .upgradeCall], Except.error .nilUpgradedConn)
        | .conn => ([.rawDialCall, .upgradeCall], Except.ok ())

/-- `Dial` from `transport.go`: dialability check, address translation,
then `dialCore`. -/
def Dial (env : DialEnv) (remoteAddress : Multiaddr) :
    List DialEv × Except DialError Unit :=
  if CanDial remoteAddress = false then ([], Except.error .notDialable)
  else
    match MultiAddrToI2PAddr remoteAddress with
    | Except.error _ => ([], Except.error .translationFailed)
    | Except.ok _ => dialCore env

/-- Closes of the raw connection, whether directly (`conn.Close()`) or
through the wrapper (`outboundConnection.Close()`). -/
def connCloses (tr : List DialEv) : Nat :=
  tr.countP (fun e => e = DialEv.rawConnClose || e = DialEv.wrappedConnClose)

def scopeOpens (tr : List DialEv) : Nat := tr.count DialEv.scopeOpen

def scopeDones (tr : List DialEv) : Nat := tr.count DialEv.scopeDone

/-! ## Transport Façade: `Listen`

`Listen` calls `inboundSession.Listen()`, wraps the raw listener with
`NewTransportListener` (a fallible adapter whose definition is outside
the sources at hand; per spec §4.3 wrapping may fail), and on success
hands the wrapped listener to `Upgrader.UpgradeListener`. -/

structure ListenEnv where
  rawListenOk : Bool
  wrapOk : Bool

inductive ListenEv where
  | rawListenCall
  | rawListenerClose
  | wrapCall
  | upgradeListenerCall
deriving DecidableEq

inductive ListenError where
  | listenFailed
  | wrapFailed
deriving DecidableEq

/-- `Listen` from `transport.go`: the multiaddr argument is ignored; the
raw listen always happens on the inbound session.  Returns the event
trace and the outcome. -/
def Listen (env : ListenEnv) (addr : Multiaddr) :
    List ListenEv × Except ListenError Unit :=
  if env.rawListenOk = false then
    ([.rawListenCall], Except.error .listenFailed)
  else if env.wrapOk = false then
    ([.rawListenCall, .wrapCall], Except.error .wrapFailed)
  else
    ([.rawListenCall, .wrapCall, .upgradeListenerCall], Except.ok ())

/-! ## Helper definitions for stating the properties -/

/-- Outcome test usable on any of the modelled operations. -/
def isOkResult {ε α : Type} : Except ε α → Bool
  | .ok _ => true
  | .error _ => false

/-- The dial outcome is a cancellation error (spec: `DialCancelled`). -/
def dialOutcomeIsCancellation : Except DialError Unit → Bool
  | .error e => e.isCancellation
  | .ok _ => false

/-- A sample dialable overlay address used by concrete witnesses. -/
def addrEx : Multiaddr := [(P_GARLIC64, "exampleDestination")]

/-- A sample syntactically valid full-form Destination string. -/
def destEx : String := String.mk (List.replicate 516 'A')

/-- A builder environment in which every provider call succeeds. -/
def buildEnvEx : BuildEnv :=
  { randIntOf := fun _ => 7
    primaryOk := true
    inboundOk := true
    outboundOk := true
    primaryAddr := destEx }

/-- A listen environment where the raw listen succeeds and the adapter
wrap fails. -/
def listenEnvWrapFail : ListenEnv := { rawListenOk := true, wrapOk := false }

/-! ## Theorems -/

/-- Matching behaviour of the transport's dial matcher: it accepts
exactly the one-component garlic64 and garlic32 address forms. -/
theorem dialMatcher_matches_iff (l : List Nat) :
    dialMatcher.matches l = true ↔ l = [P_GARLIC64] ∨ l = [P_GARLIC32] := by
  rcases l with _ | ⟨x, rest⟩
  · simp [dialMatcher, MafmtPattern.matches, mafmtPartialMatch]
  · by_cases hx : x = P_GARLIC64
    · subst hx
      rcases rest with _ | ⟨y, rest2⟩ <;>
        simp [dialMatcher, MafmtPattern.matches, mafmtPartialMatch,
          P_GARLIC64, P_GARLIC32]
    · by_cases hx2 : x = P_GARLIC32
      · subst hx2
        rcases rest with _ | ⟨y, rest2⟩ <;>
          simp [dialMatcher, MafmtPattern.matches, mafmtPartialMatch,
            P_GARLIC64, P_GARLIC32]
      · simp [dialMatcher, MafmtPattern.matches, mafmtPartialMatch, hx, hx2]

/-- Claim C4: `CanDial` returns true exactly for the two recognized
overlay-destination address forms (a single garlic64 or garlic32
component) and false for every other tag, in particular for a plain TCP
address. -/
theorem canDial_garlic_only :
    (∀ a : Multiaddr, CanDial a = true ↔
        maProtocols a = [P_GARLIC64] ∨ maProtocols a = [P_GARLIC32])
    ∧ (∀ s : String, CanDial [(P_TCP, s)] = false) := by
  constructor
  · intro a
    exact dialMatcher_matches_iff (maProtocols a)
  · intro s
    simp [CanDial, maProtocols, dialMatcher, MafmtPattern.matches,
      mafmtPartialMatch, P_TCP, P_GARLIC64, P_GARLIC32]

/-- Witness for C4 at a concrete garlic64 address. -/
theorem canDial_garlic_only_witness : CanDial [(P_GARLIC64, "dest")] = true :=
  (canDial_garlic_only.1 [(P_GARLIC64, "dest")]).mpr (Or.inl rfl)

/-- Claim C9: `Protocols` advertises exactly garlic64, garlic32 and TCP;
every tag `CanDial` accepts is advertised, yet the TCP tag is advertised
while no dialable address carries it — a strict superset. -/
theorem protocols_strict_superset :
    Protocols = [P_GARLIC64, P_GARLIC32, P_TCP]
    ∧ (∀ s : String, CanDial [(P_TCP, s)] = false)
    ∧ (∀ a : Multiaddr, CanDial a = true → ∀ c ∈ maProtocols a, c ∈ Protocols)
    ∧ P_TCP ∈ Protocols
    ∧ (∀ a : Multiaddr, CanDial a = true → P_TCP ∉ maProtocols a) := by
  refine ⟨rfl, ?_, ?_, by decide, ?_⟩
  · intro s
    simp [CanDial, maProtocols, dialMatcher, MafmtPattern.matches,
      mafmtPartialMatch, P_TCP, P_GARLIC64, P_GARLIC32]
  · intro a ha c hc
    rcases (dialMatcher_matches_iff (maProtocols a)).mp ha with h | h <;>
      rw [h] at hc <;> simp at hc <;> simp [hc, Protocols]
  · intro a ha
    rcases (dialMatcher_matches_iff (maProtocols a)).mp ha with h | h <;>
      rw [h] <;> decide

/-- Witness for C9 at a concrete garlic64 address. -/
theorem protocols_strict_superset_witness :
    P_TCP ∉ maProtocols [(P_GARLIC64, "dest")] :=
  protocols_strict_superset.2.2.2.2 [(P_GARLIC64, "dest")] rfl

/-- Claim C3: converting a valid full-form Destination string to a
multiaddr and back yields the original string. -/
theorem destination_roundtrip (d : String)
    (h : isValidFullDestination d = true) :
    (I2PAddrToMultiAddr d).bind MultiAddrToI2PAddr = Except.ok d := by
  simp [I2PAddrToMultiAddr, h, MultiAddrToI2PAddr, Except.bind]

set_option maxRecDepth 8192 in
/-- Witness for C3 at a concrete valid full-form Destination. -/
theorem destination_roundtrip_witness :
    (I2PAddrToMultiAddr destEx).bind MultiAddrToI2PAddr = Except.ok destEx :=
  destination_roundtrip destEx (by decide)

/-- Claim C7: `Listen` ignores its multiaddr argument — for identical
transport state it performs the same calls and returns the same result
whatever address is supplied. -/
theorem listen_ignores_address (env : ListenEnv) (a1 a2 : Multiaddr) :
    Listen env a1 = Listen env a2 := rfl

/-- Reduction of `Dial` to its post-check body when the address is
dialable and translatable. -/
theorem dial_after_checks (env : DialEnv) (a : Multiaddr) (s : String)
    (hc : CanDial a = true) (ht : MultiAddrToI2PAddr a = Except.ok s) :
    Dial env a = dialCore env := by
  simp [Dial, hc, ht]

/-- Claim C8: with the context already cancelled at the pre-dial
checkpoint, `Dial` on a dialable, translatable address returns a
cancellation error and never invokes the raw dial primitive. -/
theorem dial_precancelled_never_dials (env : DialEnv) (a : Multiaddr)
    (s : String) (hc : CanDial a = true)
    (ht : MultiAddrToI2PAddr a = Except.ok s)
    (hcancel : env.ctxCancelled1 = true) :
    Dial env a = ([], Except.error DialError.cancelledBeforeDial)
    ∧ DialEv.rawDialCall ∉ (Dial env a).1
    ∧ dialOutcomeIsCancellation (Dial env a).2 = true := by
  rw [dial_after_checks env a s hc ht]
  rcases env with ⟨c1, rd, c2, c3, la, nc, un, c4, hr, oc, up, c5⟩
  simp only at hcancel
  subst hcancel
  exact ⟨rfl, by simp [dialCore], rfl⟩

/-- Witness for C8 at a concrete cancelled environment. -/
theorem dial_precancelled_never_dials_witness :
    Dial ⟨true, RawResult.conn, false, false, true, true, false, false,
        true, true, RawResult.conn, false⟩ addrEx
      = ([], Except.error DialError.cancelledBeforeDial) :=
  (dial_precancelled_never_dials _ addrEx "exampleDestination" rfl rfl rfl).1

/-- Claim C1: when the raw dial returns a connection but the context is
observed cancelled at the post-dial or pre-upgrade checkpoint, `Dial`
closes the connection exactly once and returns a cancellation error —
never a live connection alongside an error. -/
theorem dial_cancelled_after_connect_cleans_up (env : DialEnv)
    (a : Multiaddr) (s : String) (hc : CanDial a = true)
    (ht : MultiAddrToI2PAddr a = Except.ok s)
    (h1 : env.ctxCancelled1 = false) (hd : env.rawDial = RawResult.conn)
    (hla : env.localAddrOk = true) (hnc : env.newConnOk = true)
    (hun : env.upgraderNil = false)
    (hcancel : env.ctxCancelled3 = true ∨ env.ctxCancelled4 = true) :
    dialOutcomeIsCancellation (Dial env a).2 = true
    ∧ connCloses (Dial env a).1 = 1 := by
  rw [dial_after_checks env a s hc ht]
  rcases env with ⟨c1, rd, c2, c3, la, nc, un, c4, hr, oc, up, c5⟩
  simp only at h1 hd hla hnc hun hcancel
  subst h1 hd hla hnc hun
  rcases hcancel with h | h
  · subst h
    cases c2 <;> cases c4 <;> cases hr <;> cases oc <;> cases up <;>
      cases c5 <;> decide
  · subst h
    cases c3 <;> cases c2 <;> cases hr <;> cases oc <;> cases up <;>
      cases c5 <;> decide

/-- Witness for C1: context cancelled at the post-dial checkpoint. -/
theorem dial_cancelled_after_connect_cleans_up_witness :
    connCloses (Dial ⟨false, RawResult.conn, false, true, true, true, false,
        false, true, true, RawResult.conn, false⟩ addrEx).1 = 1 :=
  (dial_cancelled_after_connect_cleans_up _ addrEx "exampleDestination"
    rfl rfl rfl rfl rfl rfl rfl (Or.inl rfl)).2

/-- Claim C2: once the raw dial has produced a connection, every failing
later step leaves the connection closed exactly once and the resource
scope balanced (opened at most once and `Done` exactly as often as
opened); on success nothing is closed, the scope stays open and passes to
the caller. -/
theorem dial_cleanup_on_failure (env : DialEnv) (a : Multiaddr)
    (s : String) (hc : CanDial a = true)
    (ht : MultiAddrToI2PAddr a = Except.ok s)
    (h1 : env.ctxCancelled1 = false) (hd : env.rawDial = RawResult.conn)
    (hup : env.upgrade ≠ RawResult.nilConn) :
    (isOkResult (Dial env a).2 = false →
       connCloses (Dial env a).1 = 1
       ∧ scopeOpens (Dial env a).1 = scopeDones (Dial env a).1
       ∧ scopeOpens (Dial env a).1 ≤ 1)
    ∧ (isOkResult (Dial env a).2 = true →
       connCloses (Dial env a).1 = 0
       ∧ scopeDones (Dial env a).1 = 0
       ∧ scopeOpens (Dial env a).1 = (if env.hasRcmgr then 1 else 0)) := by
  rw [dial_after_checks env a s hc ht]
  rcases env with ⟨c1, rd, c2, c3, la, nc, un, c4, hr, oc, up, c5⟩
  simp only at h1 hd hup ⊢
  subst h1 hd
  cases up with
  | nilConn => exact absurd rfl hup
  | err =>
    cases c2 <;> cases c3 <;> cases la <;> cases nc <;> cases un <;>
      cases c4 <;> cases hr <;> cases oc <;> cases c5 <;> decide
  | conn =>
    cases c2 <;> cases c3 <;> cases la <;> cases nc <;> cases un <;>
      cases c4 <;> cases hr <;> cases oc <;> cases c5 <;> decide

/-- Witness for C2: a failed resource-scope acquisition closes the
wrapped connection exactly once and leaves no scope open. -/
theorem dial_cleanup_on_failure_witness :
    connCloses (Dial ⟨false, RawResult.conn, false, false, true, true,
        false, false, true, false, RawResult.conn, false⟩ addrEx).1 = 1 :=
  ((dial_cleanup_on_failure _ addrEx "exampleDestination" rfl rfl rfl rfl
    (by decide)).1 (by decide)).1

/-- On a successful build, the provider-call trace is exactly: primary
session, inbound sub-session (default ports), outbound sub-session with
ports "1"/"0". -/
theorem build_success_trace (env : BuildEnv) (p : String) (seed : Int)
    (h : isOkResult (I2PTransportBuilder env p seed).2 = true) :
    (I2PTransportBuilder env p seed).1 =
      [BuildEv.newPrimarySession
          ("primarySession-" ++ toString (env.randIntOf seed)),
       BuildEv.newStreamSubSession
          ("inboundSession-" ++ toString (env.randIntOf seed)),
       BuildEv.newStreamSubSessionWithPorts
          ("outboundSession-" ++ toString (env.randIntOf seed)) "1" "0"] := by
  rcases env with ⟨rng, pok, iok, ook, paddr⟩
  simp only at h ⊢
  cases pok
  · simp [I2PTransportBuilder, isOkResult] at h
  · cases iok
    · simp [I2PTransportBuilder, isOkResult] at h
    · cases ook
      · simp [I2PTransportBuilder, isOkResult] at h
      · cases hI : I2PAddrToMultiAddr paddr with
        | error e => simp [I2PTransportBuilder, isOkResult, hI] at h
        | ok dest => simp [I2PTransportBuilder, hI]

/-- Claim C5: on every successful construction, the inbound sub-session
is created on the default protocol/port pair, the outbound sub-session
on the reserved alternate from-port "1", and the two bindings never
collide. -/
theorem session_ports_never_collide (env : BuildEnv) (p : String)
    (seed : Int)
    (h : isOkResult (I2PTransportBuilder env p seed).2 = true) :
    BuildEv.newStreamSubSession
        ("inboundSession-" ++ toString (env.randIntOf seed))
      ∈ (I2PTransportBuilder env p seed).1
    ∧ BuildEv.newStreamSubSessionWithPorts
        ("outboundSession-" ++ toString (env.randIntOf seed)) "1" "0"
      ∈ (I2PTransportBuilder env p seed).1
    ∧ (BuildEv.newStreamSubSession
        ("inboundSession-" ++ toString (env.randIntOf seed))).binding
        = some (defaultFromPort, defaultToPort)
    ∧ (BuildEv.newStreamSubSessionWithPorts
        ("outboundSession-" ++ toString (env.randIntOf seed)) "1" "0").binding
        = some ("1", "0")
    ∧ (BuildEv.newStreamSubSession
        ("inboundSession-" ++ toString (env.randIntOf seed))).binding
      ≠ (BuildEv.newStreamSubSessionWithPorts
        ("outboundSession-" ++ toString (env.randIntOf seed)) "1" "0").binding := by
  rw [build_success_trace env p seed h]
  refine ⟨by simp, by simp, rfl, rfl, ?_⟩
  simp [BuildEv.binding, defaultFromPort, defaultToPort]

set_option maxRecDepth 8192 in
/-- Witness for C5: a concrete all-success build environment. -/
theorem session_ports_never_collide_witness :
    BuildEv.newStreamSubSessionWithPorts
        ("outboundSession-" ++ toString (buildEnvEx.randIntOf 0)) "1" "0"
      ∈ (I2PTransportBuilder buildEnvEx "2345" 0).1 :=
  (session_ports_never_collide buildEnvEx "2345" 0 (by decide)).2.1

/-- Claim C10: the builder's `outboundPort` argument is never read — the
provider calls and results are identical for any two values of it, and
the outbound sub-session is always created with the hard-coded from-port
"1" and to-port "0". -/
theorem outbound_port_argument_unused :
    (∀ (env : BuildEnv) (seed : Int) (p1 p2 : String),
       I2PTransportBuilder env p1 seed = I2PTransportBuilder env p2 seed)
    ∧ (∀ (env : BuildEnv) (p : String) (seed : Int),
       isOkResult (I2PTransportBuilder env p seed).2 = true →
       BuildEv.newStreamSubSessionWithPorts
           ("outboundSession-" ++ toString (env.randIntOf seed)) "1" "0"
         ∈ (I2PTransportBuilder env p seed).1) := by
  constructor
  · intro env seed p1 p2
    rfl
  · intro env p seed h
    rw [build_success_trace env p seed h]
    simp

set_option maxRecDepth 8192 in
/-- Witness for C10: two different port arguments give identical
behaviour, and the success path carries the hard-coded ports. -/
theorem outbound_port_argument_unused_witness :
    I2PTransportBuilder buildEnvEx "2345" 0
      = I2PTransportBuilder buildEnvEx "45793" 0
    ∧ BuildEv.newStreamSubSessionWithPorts
        ("outboundSession-" ++ toString (buildEnvEx.randIntOf 0)) "1" "0"
      ∈ (I2PTransportBuilder buildEnvEx "45793" 0).1 :=
  ⟨outbound_port_argument_unused.1 buildEnvEx 0 "2345" "45793",
   outbound_port_argument_unused.2 buildEnvEx "45793" 0 (by decide)⟩

/-- Claim C6 counterexample: with a successful raw listen and a failing
adapter wrap, `Listen` returns the wrap error without closing the raw
listener — the raw listener is leaked, contradicting the claim that it
is closed before the error is returned. -/
theorem listen_wrap_failure_leaks_listener :
    (Listen listenEnvWrapFail addrEx).2 = Except.error ListenError.wrapFailed
    ∧ ListenEv.rawListenerClose ∉ (Listen listenEnvWrapFail addrEx).1 :=
  ⟨rfl, by decide⟩

/-- Claim C6 (amended): `Listen` releases nothing on its failure paths —
no path of `Listen` closes the raw listener; in particular when wrapping
fails after a successful raw listen, the error is returned while the raw
listener stays open. -/
theorem listen_failure_releases_nothing (env : ListenEnv) (a : Multiaddr) :
    ListenEv.rawListenerClose ∉ (Listen env a).1
    ∧ (env.rawListenOk = true → env.wrapOk = false →
       Listen env a = ([ListenEv.rawListenCall, ListenEv.wrapCall],
         Except.error ListenError.wrapFailed)) := by
  rcases env with ⟨r, w⟩
  constructor
  · cases r <;> cases w <;> simp [Listen]
  · intro h1 h2
    simp only at h1 h2
    subst h1
    subst h2
    rfl

/-- Witness for the amended C6 at a concrete environment. -/
theorem listen_failure_releases_nothing_witness :
    Listen ⟨true, false⟩ [] = ([ListenEv.rawListenCall, ListenEv.wrapCall],
      Except.error ListenError.wrapFailed) :=
  (listen_failure_releases_nothing ⟨true, false⟩ []).2 rfl rfl
